import Mathlib

/-!
Shallow embedding of src/autolysis.py: a batch CSV analysis pipeline
(load, analyze, visualize, report) driven over a fixed mapping of dataset
names to file paths.  Machine floats of the source are modelled as exact
rationals; the file system, the pandas reader and the rendering backend are
modelled as an explicit world of oracles, and every observable action of the
program (directory creation, file writes, log lines, figure management,
process termination) is recorded in an event trace.
-/

namespace Autolysis

/-- Pandas dtype of a column, as distinguished by the source
(select_dtypes with include [float64, int64]). -/
inductive Dtype where
  | float64
  | int64
  | object
  | boolean
  deriving DecidableEq, Repr

/-- One cell of a loaded table: missing (NaN / None), a numeric value
(floats modelled as exact rationals), a string, or a boolean. -/
inductive Cell where
  | null
  | num (q : ℚ)
  | str (s : String)
  | bool (b : Bool)
  deriving DecidableEq, Repr

/-- One named, typed column of a loaded DataFrame. -/
structure Column where
  name : String
  dtype : Dtype
  cells : List Cell
  deriving DecidableEq, Repr

/-- An in-memory pandas DataFrame: named typed columns plus the row count
(pandas shape is (nrows, number of columns)). -/
structure Dataset where
  cols : List Column
  nrows : ℕ
  deriving DecidableEq, Repr

/-- Whether a dtype is selected by data.select_dtypes(include=[float64, int64]). -/
def Dtype.isNumeric : Dtype → Bool
  | .float64 => true
  | .int64 => true
  | _ => false

/-- Embedding of data.select_dtypes(include=[float64, int64]): the projection
of the DataFrame onto its numeric columns; the row count is unchanged. -/
def numericSubset (d : Dataset) : Dataset :=
  ⟨d.cols.filter (fun c => c.dtype.isNumeric), d.nrows⟩

/-- Embedding of the pandas DataFrame.empty test: true when any axis has
length zero, that is when there are no columns or no rows. -/
def pdEmpty (d : Dataset) : Bool :=
  d.cols.isEmpty || d.nrows == 0

/-- Embedding of data.isnull() summed over one column: the number of missing
cells. -/
def nullCount (c : Column) : ℕ :=
  c.cells.countP (fun x => match x with | Cell.null => true | _ => false)

/-- Embedding of data.isnull().sum(): a series mapping each column name,
in column order, to its missing-cell count (columns with zero missing cells
included). -/
def missingSeries (d : Dataset) : List (String × ℕ) :=
  d.cols.map (fun c => (c.name, nullCount c))

/-- The numeric observations of one column: its cells that hold a number,
in row order (pandas correlation skips NaN entries). -/
def obsList (c : Column) : List ℚ :=
  c.cells.filterMap (fun x => match x with | Cell.num q => some q | _ => none)

/-- Rows at which both columns hold a number: the pairwise-complete
observations used by DataFrame.corr for one entry of the matrix. -/
def pairedCells (l1 l2 : List Cell) : List (ℚ × ℚ) :=
  (l1.zip l2).filterMap (fun p =>
    match p.1, p.2 with
    | Cell.num x, Cell.num y => some (x, y)
    | _, _ => none)

/-- Pairwise-complete observations of two columns. -/
def pairedObs (ci cj : Column) : List (ℚ × ℚ) :=
  pairedCells ci.cells cj.cells

/-- Sum of the first components of a list of observation pairs. -/
def sumFst (ps : List (ℚ × ℚ)) : ℚ := (ps.map (fun p => p.1)).sum

/-- Sum of the second components of a list of observation pairs. -/
def sumSnd (ps : List (ℚ × ℚ)) : ℚ := (ps.map (fun p => p.2)).sum

/-- Sum of squares of the first components. -/
def sumFstSq (ps : List (ℚ × ℚ)) : ℚ := (ps.map (fun p => p.1 * p.1)).sum

/-- Sum of squares of the second components. -/
def sumSndSq (ps : List (ℚ × ℚ)) : ℚ := (ps.map (fun p => p.2 * p.2)).sum

/-- Sum of the products of the two components. -/
def sumProd (ps : List (ℚ × ℚ)) : ℚ := (ps.map (fun p => p.1 * p.2)).sum

/-- Scaled variance of the first coordinate: nobs * sumxx - sumx * sumx. -/
def vxOf (ps : List (ℚ × ℚ)) : ℚ :=
  (ps.length : ℚ) * sumFstSq ps - sumFst ps * sumFst ps

/-- Scaled variance of the second coordinate: nobs * sumyy - sumy * sumy. -/
def vyOf (ps : List (ℚ × ℚ)) : ℚ :=
  (ps.length : ℚ) * sumSndSq ps - sumSnd ps * sumSnd ps

/-- Scaled covariance: nobs * sumxy - sumx * sumy. -/
def covOf (ps : List (ℚ × ℚ)) : ℚ :=
  (ps.length : ℚ) * sumProd ps - sumFst ps * sumSnd ps

/-- Embedding of one entry of numeric_data.corr() as computed by the pandas
nancorr kernel over a list of pairwise-complete observations: when there are
no observations, or the divisor vx * vy is zero, the entry is NaN (none).
A defined entry is kept unevaluated as the pair (covariance, vx * vy), whose
real value is cov / sqrt (vx * vy); this keeps the embedding exact over
the rationals.  The final clipping of the float value into [-1, 1] is not
represented, since it preserves the two properties at stake here (symmetry
and a unit diagonal). -/
def corrOf (ps : List (ℚ × ℚ)) : Option (ℚ × ℚ) :=
  if ps.length = 0 then none
  else if vxOf ps * vyOf ps = 0 then none
  else some (covOf ps, vxOf ps * vyOf ps)

/-- One entry of numeric_data.corr() for a pair of columns. -/
def corrEntry (ci cj : Column) : Option (ℚ × ℚ) :=
  corrOf (pairedObs ci cj)

/-- The represented correlation value num / sqrt (div) equals one exactly when
the numerator is positive and its square equals the divisor; a NaN entry is
never equal to one. -/
def repIsOne : Option (ℚ × ℚ) → Prop
  | some p => 0 < p.1 ∧ p.1 * p.1 = p.2
  | none => False

instance (e : Option (ℚ × ℚ)) : Decidable (repIsOne e) := by
  unfold repIsOne
  cases e <;> infer_instance

/-- The rendered correlation matrix of a dataset is symmetric. -/
def corrSymmetric (d : Dataset) : Prop :=
  ∀ ci ∈ (numericSubset d).cols, ∀ cj ∈ (numericSubset d).cols,
    corrEntry ci cj = corrEntry cj ci

instance (d : Dataset) : Decidable (corrSymmetric d) := by
  unfold corrSymmetric
  infer_instance

/-- Every numeric column of the dataset has self-correlation equal to one. -/
def corrUnitDiag (d : Dataset) : Prop :=
  ∀ c ∈ (numericSubset d).cols, repIsOne (corrEntry c c)

instance (d : Dataset) : Decidable (corrUnitDiag d) := by
  unfold corrUnitDiag
  infer_instance

/- Event-trace model of the orchestrated pipeline. -/

/-- A filesystem path as a list of components; os.path.join of the source
appends one component. -/
abbrev FPath := List String

/-- Character encodings the loader passes to pd.read_csv. -/
inductive Encoding where
  | utf8
  | iso8859_1
  deriving DecidableEq, Repr

/-- Outcome of one pd.read_csv call: a parsed DataFrame, or one of the
exception classes distinguished by the except clauses of load_data. -/
inductive ReadResult where
  | ok (d : Dataset)
  | unicodeDecodeError
  | fileNotFound
  | emptyDataError
  | otherError (msg : String)
  deriving DecidableEq, Repr

/-- One chunk of the Markdown report, one per f.write call of
generate_markdown_report, in source order. -/
inductive Piece where
  | title
  | overviewHeader
  | shapeLine (rows cols : ℕ)
  | missingHeader
  | missingBody (entries : List (String × ℕ))
  | blank
  | statsHeader
  | statsBody (columns : List String)
  | newline
  deriving DecidableEq, Repr

/-- Observable actions of the program, recorded in order. -/
inductive Ev where
  | mkdir (p : FPath) (existOk : Bool)
  | readCsv (path : String) (enc : Encoding)
  | log (msg : String)
  | figure
  | savefig (p : FPath)
  | closeFig
  | writeFile (p : FPath) (content : List Piece)
  | exited
  deriving DecidableEq, Repr

/-- The external world the program runs against: what each pd.read_csv call
returns, which stage operations raise (the exception injection points:
the analysis calls, each plt.savefig, and the report file write), and the
process environment. -/
structure World where
  read : String → Encoding → ReadResult
  analyzeRaises : Dataset → Bool
  heatmapFails : FPath → Bool
  pairplotFails : FPath → Bool
  reportFails : FPath → Bool
  env : String → Option String

/- Log messages (apostrophes of the source text are omitted; where the source
interpolates a path or an exception text into the message, the model keeps the
constant part and appends the path when it is available). -/

/-- Rendering of a path for log messages. -/
def pathStr (p : FPath) : String := String.intercalate "/" p

def loadedMsg (fp : String) : String := "Data loaded successfully from " ++ fp

def encodingErrMsg : String :=
  "Error: File encoding not supported. Trying ISO-8859-1."

def loadedFallbackMsg (fp : String) : String :=
  "Data loaded successfully from " ++ fp ++ " with ISO-8859-1 encoding."

def loadErrMsg : String := "Error loading file"

def notFoundMsg : String := "Error: File not found."

def emptyFileMsg : String := "Error: File is empty."

def heatmapSavedMsg (p : FPath) : String :=
  "Correlation heatmap saved to " ++ pathStr p

def pairplotSavedMsg (p : FPath) : String :=
  "Pairplot saved to " ++ pathStr p

def visErrMsg : String := "Error creating visualizations"

def reportSavedMsg (p : FPath) : String :=
  "Markdown report saved to " ++ pathStr p

def reportErrMsg : String := "Error generating Markdown report"

def processingMsg (name : String) : String := "Processing dataset: " ++ name

def tokenErrMsg : String :=
  "Error: AIPROXY_TOKEN environment variable not set."

/-- Embedding of load_data: try pd.read_csv with utf-8; on a
UnicodeDecodeError retry once with ISO-8859-1 and exit the process if that
retry raises anything; exit on FileNotFoundError, EmptyDataError or any
other exception of the first attempt.  Returns the trace of the call and
the DataFrame, none standing for the exit() paths. -/
def load_data (w : World) (fp : String) : List Ev × Option Dataset :=
  match w.read fp Encoding.utf8 with
  | ReadResult.ok d =>
      ([Ev.readCsv fp Encoding.utf8, Ev.log (loadedMsg fp)], some d)
  | ReadResult.unicodeDecodeError =>
      match w.read fp Encoding.iso8859_1 with
      | ReadResult.ok d =>
          ([Ev.readCsv fp Encoding.utf8, Ev.log encodingErrMsg,
            Ev.readCsv fp Encoding.iso8859_1, Ev.log (loadedFallbackMsg fp)],
            some d)
      | _ =>
          ([Ev.readCsv fp Encoding.utf8, Ev.log encodingErrMsg,
            Ev.readCsv fp Encoding.iso8859_1, Ev.log loadErrMsg, Ev.exited],
            none)
  | ReadResult.fileNotFound =>
      ([Ev.readCsv fp Encoding.utf8, Ev.log notFoundMsg, Ev.exited], none)
  | ReadResult.emptyDataError =>
      ([Ev.readCsv fp Encoding.utf8, Ev.log emptyFileMsg, Ev.exited], none)
  | ReadResult.otherError e =>
      ([Ev.readCsv fp Encoding.utf8, Ev.log (loadErrMsg ++ ": " ++ e),
        Ev.exited], none)

/-- Columns covered by data.describe(): the numeric columns when any exist,
otherwise all columns. -/
def describeColumns (d : Dataset) : List String :=
  let nc := (numericSubset d).cols.map (fun c => c.name)
  if nc.isEmpty then d.cols.map (fun c => c.name) else nc

/-- Rendering of the missing-value series as printed by to_string: one line
per column with its null count. -/
def missingText (d : Dataset) : String :=
  String.intercalate "\n"
    ((missingSeries d).map (fun e => e.1 ++ " " ++ toString e.2))

/-- Rendering of the structural overview printed by data.info(). -/
def infoText (d : Dataset) : String :=
  toString d.nrows ++ " rows, " ++ toString d.cols.length ++ " columns"

/-- Rendering of the descriptive-statistics table header (column coverage). -/
def describeText (d : Dataset) : String :=
  String.intercalate " " (describeColumns d)

/-- Embedding of analyze_data: prints the overview, the summary statistics
and the missing-value counts.  The function body has no try/except, so the
second component records whether an exception escaped the stage (the
injection point is placed at the first analysis call). -/
def analyze_data (w : World) (data : Dataset) : List Ev × Bool :=
  if w.analyzeRaises data then
    ([Ev.log "--- Dataset Overview ---"], true)
  else
    ([Ev.log "--- Dataset Overview ---", Ev.log (infoText data),
      Ev.log "--- Summary Statistics ---", Ev.log (describeText data),
      Ev.log "--- Missing Values ---", Ev.log (missingText data)], false)

/-- Embedding of visualize_data: inside one try/except, when the numeric
projection is not empty (pandas empty: no columns or no rows), render and
save the correlation heatmap and then the pairplot, closing the active
figure after each save; any exception jumps to the handler, which logs the
error, so a heatmap failure skips the pairplot.  A savefig failure point
raises after its figure was created and before the file exists. -/
def visualize_data (w : World) (data : Dataset) (dir : FPath) : List Ev :=
  let numeric := numericSubset data
  if pdEmpty numeric then []
  else if w.heatmapFails dir then
    [Ev.figure, Ev.log visErrMsg]
  else
    [Ev.figure, Ev.savefig (dir ++ ["correlation_heatmap.png"]),
      Ev.log (heatmapSavedMsg (dir ++ ["correlation_heatmap.png"])), Ev.closeFig] ++
    (if w.pairplotFails dir then
      [Ev.figure, Ev.log visErrMsg]
    else
      [Ev.figure, Ev.savefig (dir ++ ["pairplot.png"]),
        Ev.log (pairplotSavedMsg (dir ++ ["pairplot.png"])), Ev.closeFig])

/-- The nine f.write calls of generate_markdown_report, in source order. -/
def reportPieces (d : Dataset) : List Piece :=
  [Piece.title, Piece.overviewHeader, Piece.shapeLine d.nrows d.cols.length,
    Piece.missingHeader, Piece.missingBody (missingSeries d), Piece.blank,
    Piece.statsHeader, Piece.statsBody (describeColumns d), Piece.newline]

/-- Embedding of generate_markdown_report: inside one try/except, write the
README.md file in the given directory and log success; an injected I/O
failure is caught and logged. -/
def generate_markdown_report (w : World) (data : Dataset) (dir : FPath) :
    List Ev :=
  if w.reportFails dir then [Ev.log reportErrMsg]
  else
    [Ev.writeFile (dir ++ ["README.md"]) (reportPieces data),
      Ev.log (reportSavedMsg (dir ++ ["README.md"]))]

/-- Embedding of one iteration of the loop in main: print the dataset name,
load (exiting the process on a load failure), create the per-dataset output
directory with exist_ok, then analyze (whose uncaught exception aborts the
run), visualize and report.  The boolean records whether the run continues
to the next dataset. -/
def processOne (w : World) (root : FPath) (name fp : String) :
    List Ev × Bool :=
  let l := load_data w fp
  match l.2 with
  | none => (Ev.log (processingMsg name) :: l.1, false)
  | some data =>
    let dir := root ++ [name]
    let a := analyze_data w data
    if a.2 then
      (Ev.log (processingMsg name) :: (l.1 ++ (Ev.mkdir dir true :: a.1)), false)
    else
      (Ev.log (processingMsg name) ::
        (l.1 ++ (Ev.mkdir dir true ::
          (a.1 ++ (visualize_data w data dir ++
            generate_markdown_report w data dir)))), true)

/-- Embedding of the datasets loop of main over an arbitrary mapping, in
iteration order; a dataset whose processing terminated the process cuts the
run short. -/
def runAll (w : World) (root : FPath) : List (String × String) → List Ev
  | [] => []
  | (n, fp) :: rest =>
    let r := processOne w root n fp
    r.1 ++ (if r.2 then runAll w root rest else [])

/-- The hardcoded dataset mapping of main. -/
def datasets : List (String × String) :=
  [("goodreads", "C:/Users/Rohit/goodreads.csv"),
    ("happiness", "C:/Users/Rohit/happiness.csv"),
    ("media", "C:/Users/Rohit/media.csv")]

/-- The output root of main. -/
def outputRoot : FPath := ["results"]

/-- Embedding of main: check the AIPROXY_TOKEN environment variable (absent
or empty is fatal before any processing), create the results root with
exist_ok, then process every dataset of the mapping in order. -/
def mainRun (w : World) : List Ev :=
  match w.env "AIPROXY_TOKEN" with
  | none => [Ev.log tokenErrMsg, Ev.exited]
  | some t =>
    if t = "" then [Ev.log tokenErrMsg, Ev.exited]
    else Ev.mkdir outputRoot true :: runAll w outputRoot datasets

/- Trace-ordering predicates and generic list lemmas. -/

/-- Event a occurs strictly before event b somewhere in the trace. -/
def evBefore (t : List Ev) (a b : Ev) : Prop :=
  ∃ i j : Fin t.length, i.val < j.val ∧ t.get i = a ∧ t.get j = b

instance (t : List Ev) (a b : Ev) : Decidable (evBefore t a b) := by
  unfold evBefore
  infer_instance

/-- The directory an event writes an artifact into, when it writes one. -/
def artifactDir : Ev → Option FPath
  | Ev.savefig p => some p.dropLast
  | Ev.writeFile p _ => some p.dropLast
  | _ => none

/-- Every artifact write of the trace is preceded by the creation of its
directory. -/
def mkdirBeforeArtifacts (t : List Ev) : Prop :=
  ∀ pre e post, t = pre ++ e :: post →
    ∀ q, artifactDir e = some q → Ev.mkdir q true ∈ pre

/-- Every saved figure is released: after any savefig event of the trace, a
closeFig event follows before the trace ends. -/
def saveThenClosed (t : List Ev) : Prop :=
  ∀ pre e post, t = pre ++ e :: post →
    (∃ p, e = Ev.savefig p) → Ev.closeFig ∈ post

/- Concrete inputs used by witnesses and counterexamples. -/

/-- A non-constant numeric column. -/
def colNum : Column := ⟨"x", Dtype.int64, [Cell.num 1, Cell.num 2]⟩

/-- A constant numeric column. -/
def colConst : Column := ⟨"x", Dtype.int64, [Cell.num 5, Cell.num 5]⟩

/-- A two-row dataset with one non-constant numeric column. -/
def dNum : Dataset := ⟨[colNum], 2⟩

/-- A two-row dataset with one constant numeric column. -/
def dConst : Dataset := ⟨[colConst], 2⟩

/-- A zero-row dataset with one numeric column (a header-only CSV). -/
def dZeroRow : Dataset :=
  ⟨[⟨"y", Dtype.int64, []⟩], 0⟩

/-- A dataset with text columns only. -/
def dText : Dataset :=
  ⟨[⟨"name", Dtype.object, [Cell.str "a", Cell.null]⟩], 2⟩

/-- A world where every read parses to dNum and nothing fails. -/
def wOk : World :=
  ⟨fun _ _ => ReadResult.ok dNum, fun _ => false, fun _ => false,
    fun _ => false, fun _ => false, fun _ => some "token"⟩

/-- A world where the analysis stage raises on every dataset. -/
def wAnaRaise : World :=
  ⟨fun _ _ => ReadResult.ok dNum, fun _ => true, fun _ => false,
    fun _ => false, fun _ => false, fun _ => some "token"⟩

/-- A world where saving the correlation heatmap raises. -/
def wHeatFail : World :=
  ⟨fun _ _ => ReadResult.ok dNum, fun _ => false, fun _ => true,
    fun _ => false, fun _ => false, fun _ => some "token"⟩

/-- A world where the first parse raises a UnicodeDecodeError and the
fallback parse succeeds. -/
def wFallback : World :=
  ⟨fun _ enc =>
      match enc with
      | Encoding.utf8 => ReadResult.unicodeDecodeError
      | Encoding.iso8859_1 => ReadResult.ok dNum,
    fun _ => false, fun _ => false, fun _ => false, fun _ => false,
    fun _ => some "token"⟩

/-- A world where the input file is missing. -/
def wNotFound : World :=
  ⟨fun _ _ => ReadResult.fileNotFound, fun _ => false, fun _ => false,
    fun _ => false, fun _ => false, fun _ => some "token"⟩

/-- The property asserted by the spec for every dataset with at least one
numeric column: the Visualizer saves both image files into the output
directory, and the rendered correlation matrix is symmetric with a unit
diagonal. -/
def claimC6Prop (w : World) (d : Dataset) (dir : FPath) : Prop :=
  Ev.savefig (dir ++ ["correlation_heatmap.png"]) ∈ visualize_data w d dir
  ∧ Ev.savefig (dir ++ ["pairplot.png"]) ∈ visualize_data w d dir
  ∧ corrSymmetric d ∧ corrUnitDiag d

instance (w : World) (d : Dataset) (dir : FPath) :
    Decidable (claimC6Prop w d dir) := by
  unfold claimC6Prop
  infer_instance

/- Correlation lemmas. -/

theorem pairedCells_swap (l1 l2 : List Cell) :
    pairedCells l2 l1 = (pairedCells l1 l2).map Prod.swap := by
  induction l1 generalizing l2 with
  | nil => cases l2 <;> simp [pairedCells]
  | cons a t1 ih =>
    cases l2 with
    | nil => simp [pairedCells]
    | cons b t2 =>
      have h := ih t2
      cases a <;> cases b <;>
        simp [pairedCells, List.zip_cons_cons, List.filterMap_cons] at h ⊢ <;>
        exact h

theorem pairedObs_swap (ci cj : Column) :
    pairedObs cj ci = (pairedObs ci cj).map Prod.swap :=
  pairedCells_swap ci.cells cj.cells

theorem sumFst_map_swap (ps : List (ℚ × ℚ)) :
    sumFst (ps.map Prod.swap) = sumSnd ps := by
  simp [sumFst, sumSnd, List.map_map, Function.comp_def]

theorem sumSnd_map_swap (ps : List (ℚ × ℚ)) :
    sumSnd (ps.map Prod.swap) = sumFst ps := by
  simp [sumFst, sumSnd, List.map_map, Function.comp_def]

theorem sumFstSq_map_swap (ps : List (ℚ × ℚ)) :
    sumFstSq (ps.map Prod.swap) = sumSndSq ps := by
  simp [sumFstSq, sumSndSq, List.map_map, Function.comp_def]

theorem sumSndSq_map_swap (ps : List (ℚ × ℚ)) :
    sumSndSq (ps.map Prod.swap) = sumFstSq ps := by
  simp [sumFstSq, sumSndSq, List.map_map, Function.comp_def]

theorem sumProd_map_swap (ps : List (ℚ × ℚ)) :
    sumProd (ps.map Prod.swap) = sumProd ps := by
  simp only [sumProd, List.map_map]
  induction ps with
  | nil => rfl
  | cons p t ih => simp [Function.comp, ih, mul_comm]

theorem vxOf_map_swap (ps : List (ℚ × ℚ)) : vxOf (ps.map Prod.swap) = vyOf ps := by
  simp [vxOf, vyOf, sumFstSq_map_swap, sumFst_map_swap]

theorem vyOf_map_swap (ps : List (ℚ × ℚ)) : vyOf (ps.map Prod.swap) = vxOf ps := by
  simp [vxOf, vyOf, sumSndSq_map_swap, sumSnd_map_swap]

theorem covOf_map_swap (ps : List (ℚ × ℚ)) : covOf (ps.map Prod.swap) = covOf ps := by
  simp [covOf, sumProd_map_swap, sumFst_map_swap, sumSnd_map_swap]
  ring

/-- DataFrame.corr is symmetric: the (i, j) and (j, i) entries agree. -/
theorem corrEntry_symm (ci cj : Column) : corrEntry ci cj = corrEntry cj ci := by
  unfold corrEntry corrOf
  rw [pairedObs_swap ci cj, vxOf_map_swap, vyOf_map_swap, covOf_map_swap,
    List.length_map, mul_comm (vyOf (pairedObs ci cj)) (vxOf (pairedObs ci cj))]

theorem pairedCells_self (l : List Cell) :
    pairedCells l l =
      (l.filterMap (fun x => match x with | Cell.num q => some q | _ => none)).map
        (fun q => (q, q)) := by
  induction l with
  | nil => simp [pairedCells]
  | cons a t ih =>
    cases a <;> simp [pairedCells, List.zip_cons_cons, List.filterMap_cons] at ih ⊢ <;>
      exact ih

theorem pairedObs_self (c : Column) :
    pairedObs c c = (obsList c).map (fun q => (q, q)) :=
  pairedCells_self c.cells

theorem sum_sq_nonneg (l : List ℚ) : 0 ≤ (l.map (fun x => x * x)).sum := by
  refine List.sum_nonneg ?_
  intro x hx
  rw [List.mem_map] at hx
  obtain ⟨y, _, rfl⟩ := hx
  exact mul_self_nonneg y

/-- Cauchy-Schwarz for a list of rationals: the square of the sum is at most
the length times the sum of squares. -/
theorem sum_sq_le (l : List ℚ) :
    l.sum * l.sum ≤ (l.length : ℚ) * (l.map (fun x => x * x)).sum := by
  induction l with
  | nil => simp
  | cons a t ih =>
    by_cases ht : t = []
    · subst ht; simp
    · have h0 : (0 : ℚ) ≤ (t.map (fun x => x * x)).sum := sum_sq_nonneg _
      have hn1 : (1 : ℚ) ≤ (t.length : ℚ) := by
        have : 1 ≤ t.length := List.length_pos.mpr ht
        exact_mod_cast this
      simp only [List.sum_cons, List.map_cons, List.length_cons]
      push_cast
      nlinarith [ih, sq_nonneg ((t.length : ℚ) * a - t.sum), h0, hn1]

theorem vxOf_map_dup (os : List ℚ) :
    vxOf (os.map (fun q => (q, q))) =
      (os.length : ℚ) * (os.map (fun x => x * x)).sum - os.sum * os.sum := by
  simp [vxOf, sumFstSq, sumFst, List.map_map, Function.comp_def]

theorem vyOf_map_dup (os : List ℚ) :
    vyOf (os.map (fun q => (q, q))) =
      (os.length : ℚ) * (os.map (fun x => x * x)).sum - os.sum * os.sum := by
  simp [vyOf, sumSndSq, sumSnd, List.map_map, Function.comp_def]

theorem covOf_map_dup (os : List ℚ) :
    covOf (os.map (fun q => (q, q))) =
      (os.length : ℚ) * (os.map (fun x => x * x)).sum - os.sum * os.sum := by
  simp [covOf, sumProd, sumFst, sumSnd, List.map_map, Function.comp_def]

/-- A defined diagonal entry of the correlation matrix equals one: with
os the observed values of the column, the entry is (v, v * v) for
v = n * sum of squares - sum * sum, which Cauchy-Schwarz makes positive
whenever it is nonzero. -/
theorem corrEntry_self_of_ne_none (c : Column) (h : corrEntry c c ≠ none) :
    repIsOne (corrEntry c c) := by
  unfold corrEntry corrOf at h ⊢
  rw [pairedObs_self c, vxOf_map_dup, vyOf_map_dup, covOf_map_dup,
    List.length_map] at h ⊢
  by_cases hlen : (obsList c).length = 0
  · simp [hlen] at h
  · simp only [hlen, if_false] at h ⊢
    by_cases hzero :
        ((obsList c).length : ℚ) * ((obsList c).map (fun x => x * x)).sum -
            (obsList c).sum * (obsList c).sum = 0
    · simp [hzero] at h
    · have hzz :
          (((obsList c).length : ℚ) * ((obsList c).map (fun x => x * x)).sum -
              (obsList c).sum * (obsList c).sum) *
            (((obsList c).length : ℚ) * ((obsList c).map (fun x => x * x)).sum -
              (obsList c).sum * (obsList c).sum) ≠ 0 :=
        mul_ne_zero hzero hzero
      simp only [hzz, if_false]
      have hvnonneg :
          0 ≤ ((obsList c).length : ℚ) * ((obsList c).map (fun x => x * x)).sum -
            (obsList c).sum * (obsList c).sum := by
        have := sum_sq_le (obsList c)
        linarith
      exact ⟨lt_of_le_of_ne hvnonneg (Ne.symm hzero), rfl⟩

theorem split_append {α : Type} (t1 t2 pre post : List α) (e : α)
    (h : t1 ++ t2 = pre ++ e :: post) :
    (∃ s, t1 = pre ++ e :: s ∧ post = s ++ t2) ∨
      (∃ p2, pre = t1 ++ p2 ∧ t2 = p2 ++ e :: post) := by
  induction t1 generalizing pre with
  | nil =>
    right
    exact ⟨pre, rfl, h⟩
  | cons a t1 ih =>
    cases pre with
    | nil =>
      left
      simp only [List.nil_append, List.cons_append] at h ⊢
      obtain ⟨rfl, h2⟩ := List.cons.inj h
      exact ⟨t1, rfl, h2.symm⟩
    | cons b pre =>
      simp only [List.cons_append] at h
      obtain ⟨rfl, h2⟩ := List.cons.inj h
      rcases ih pre h2 with ⟨s, hs1, hs2⟩ | ⟨p2, hp1, hp2⟩
      · exact Or.inl ⟨s, by rw [hs1]; rfl, hs2⟩
      · exact Or.inr ⟨p2, by rw [hp1]; rfl, hp2⟩

theorem mem_pre_of_no_earlier {α : Type} (p : α → Prop) (B post : List α)
    (m e : α) (hm : ¬ p m) (he : p e) :
    ∀ A pre : List α, (∀ x ∈ A, ¬ p x) → A ++ m :: B = pre ++ e :: post →
      m ∈ pre := by
  intro A
  induction A with
  | nil =>
    intro pre hA h
    cases pre with
    | nil =>
      simp only [List.nil_append] at h
      obtain ⟨rfl, _⟩ := List.cons.inj h
      exact absurd he hm
    | cons b pre =>
      simp only [List.nil_append, List.cons_append] at h
      obtain ⟨rfl, _⟩ := List.cons.inj h
      exact List.mem_cons_self _ _
  | cons a A ih =>
    intro pre hA h
    cases pre with
    | nil =>
      simp only [List.cons_append, List.nil_append] at h
      obtain ⟨rfl, _⟩ := List.cons.inj h
      exact absurd he (hA _ (List.mem_cons_self _ _))
    | cons b pre =>
      simp only [List.cons_append] at h
      obtain ⟨rfl, h2⟩ := List.cons.inj h
      exact List.mem_cons_of_mem _
        (ih pre (fun x hx => hA x (List.mem_cons_of_mem _ hx)) h2)

/-- A trace with no artifact events vacuously satisfies the directory
ordering property. -/
theorem mkdirBeforeArtifacts_of_none (t : List Ev)
    (h : ∀ e ∈ t, artifactDir e = none) : mkdirBeforeArtifacts t := by
  intro pre e post ht q hq
  have : artifactDir e = none := h e (by rw [ht]; exact List.mem_append_right _ (List.mem_cons_self _ _))
  rw [this] at hq
  exact absurd hq (by simp)

/-- The directory ordering property composes across concatenation. -/
theorem mkdirBeforeArtifacts_append (t1 t2 : List Ev)
    (h1 : mkdirBeforeArtifacts t1) (h2 : mkdirBeforeArtifacts t2) :
    mkdirBeforeArtifacts (t1 ++ t2) := by
  intro pre e post ht q hq
  rcases split_append t1 t2 pre post e ht with ⟨s, hs1, _⟩ | ⟨p2, hp1, hp2⟩
  · exact h1 pre e s hs1 q hq
  · rw [hp1]
    exact List.mem_append_right _ (h2 p2 e post hp2 q hq)

/-- Release discipline for the empty trace. -/
theorem saveThenClosed_nil : saveThenClosed [] := by
  intro pre e post ht
  exact absurd ht.symm (by simp)

/-- Unfolding step for the release discipline. -/
theorem saveThenClosed_cons (a : Ev) (t : List Ev) :
    saveThenClosed (a :: t) ↔
      ((∃ p, a = Ev.savefig p) → Ev.closeFig ∈ t) ∧ saveThenClosed t := by
  constructor
  · intro h
    constructor
    · intro hp
      exact h [] a t rfl hp
    · intro pre e post ht hp
      exact h (a :: pre) e post (by rw [ht]; rfl) hp
  · rintro ⟨h1, h2⟩ pre e post ht hp
    cases pre with
    | nil =>
      obtain ⟨rfl, rfl⟩ := List.cons.inj ht
      exact h1 hp
    | cons b pre =>
      simp only [List.cons_append] at ht
      obtain ⟨rfl, ht2⟩ := List.cons.inj ht
      exact h2 pre e post ht2 hp

/- Stage and orchestration lemmas. -/

theorem processOne_of_load_none (w : World) (root : FPath) (n fp : String)
    (h : (load_data w fp).2 = none) :
    processOne w root n fp = (Ev.log (processingMsg n) :: (load_data w fp).1, false) := by
  simp [processOne, h]

/-- With a successful load and a non-raising analysis, one loop iteration is
exactly: the progress line, the loader trace, the directory creation with
exist_ok, then the analyzer, visualizer and reporter traces, and the run
continues. -/
theorem processOne_ok_eq (w : World) (root : FPath) (n fp : String)
    (data : Dataset) (hl : (load_data w fp).2 = some data)
    (ha : w.analyzeRaises data = false) :
    processOne w root n fp =
      (Ev.log (processingMsg n) ::
        ((load_data w fp).1 ++ (Ev.mkdir (root ++ [n]) true ::
          ((analyze_data w data).1 ++ (visualize_data w data (root ++ [n]) ++
            generate_markdown_report w data (root ++ [n]))))), true) := by
  simp [processOne, hl, analyze_data, ha]

theorem processOne_of_analyze_raises (w : World) (root : FPath) (n fp : String)
    (data : Dataset) (hl : (load_data w fp).2 = some data)
    (ha : w.analyzeRaises data = true) :
    processOne w root n fp =
      (Ev.log (processingMsg n) ::
        ((load_data w fp).1 ++ (Ev.mkdir (root ++ [n]) true ::
          (analyze_data w data).1)), false) := by
  simp [processOne, hl, analyze_data, ha]

theorem runAll_cons_of_cont (w : World) (root : FPath) (n fp : String)
    (rest : List (String × String)) (h : (processOne w root n fp).2 = true) :
    runAll w root ((n, fp) :: rest) =
      (processOne w root n fp).1 ++ runAll w root rest := by
  simp [runAll, h]

theorem runAll_cons_of_stop (w : World) (root : FPath) (n fp : String)
    (rest : List (String × String)) (h : (processOne w root n fp).2 = false) :
    runAll w root ((n, fp) :: rest) = (processOne w root n fp).1 := by
  simp [runAll, h]

theorem visualize_heatmapFail_eq (w : World) (data : Dataset) (dir : FPath)
    (hne : pdEmpty (numericSubset data) = false)
    (hf : w.heatmapFails dir = true) :
    visualize_data w data dir = [Ev.figure, Ev.log visErrMsg] := by
  simp [visualize_data, hne, hf]

theorem visualize_ok_eq (w : World) (data : Dataset) (dir : FPath)
    (hne : pdEmpty (numericSubset data) = false)
    (h1 : w.heatmapFails dir = false) (h2 : w.pairplotFails dir = false) :
    visualize_data w data dir =
      [Ev.figure, Ev.savefig (dir ++ ["correlation_heatmap.png"]),
        Ev.log (heatmapSavedMsg (dir ++ ["correlation_heatmap.png"])), Ev.closeFig,
        Ev.figure, Ev.savefig (dir ++ ["pairplot.png"]),
        Ev.log (pairplotSavedMsg (dir ++ ["pairplot.png"])), Ev.closeFig] := by
  simp [visualize_data, hne, h1, h2]

theorem report_ok_eq (w : World) (data : Dataset) (dir : FPath)
    (h : w.reportFails dir = false) :
    generate_markdown_report w data dir =
      [Ev.writeFile (dir ++ ["README.md"]) (reportPieces data),
        Ev.log (reportSavedMsg (dir ++ ["README.md"]))] := by
  simp [generate_markdown_report, h]

theorem report_fail_eq (w : World) (data : Dataset) (dir : FPath)
    (h : w.reportFails dir = true) :
    generate_markdown_report w data dir = [Ev.log reportErrMsg] := by
  simp [generate_markdown_report, h]

/- Artifact lemmas: which events write files, and into which directory. -/

theorem dropLast_append_single (l : FPath) (a : String) :
    (l ++ [a]).dropLast = l := by
  simp

theorem visualize_pairFail_eq (w : World) (data : Dataset) (dir : FPath)
    (hne : pdEmpty (numericSubset data) = false)
    (h1 : w.heatmapFails dir = false) (h2 : w.pairplotFails dir = true) :
    visualize_data w data dir =
      [Ev.figure, Ev.savefig (dir ++ ["correlation_heatmap.png"]),
        Ev.log (heatmapSavedMsg (dir ++ ["correlation_heatmap.png"])), Ev.closeFig,
        Ev.figure, Ev.log visErrMsg] := by
  simp [visualize_data, hne, h1, h2]

theorem load_data_no_artifacts (w : World) (fp : String) :
    ∀ e ∈ (load_data w fp).1, artifactDir e = none := by
  rcases h : w.read fp Encoding.utf8 with d | _ | _ | _ | msg
  · simp [load_data, h, artifactDir]
  · rcases h2 : w.read fp Encoding.iso8859_1 with d | _ | _ | _ | m2 <;>
      simp [load_data, h, h2, artifactDir]
  · simp [load_data, h, artifactDir]
  · simp [load_data, h, artifactDir]
  · simp [load_data, h, artifactDir]

theorem analyze_data_no_artifacts (w : World) (data : Dataset) :
    ∀ e ∈ (analyze_data w data).1, artifactDir e = none := by
  by_cases h : w.analyzeRaises data = true <;>
    simp [analyze_data, h, artifactDir]

theorem visualize_artifacts (w : World) (data : Dataset) (dir : FPath) :
    ∀ e ∈ visualize_data w data dir, ∀ q, artifactDir e = some q → q = dir := by
  intro e he q hq
  by_cases h0 : pdEmpty (numericSubset data) = true
  · unfold visualize_data at he
    rw [if_pos h0] at he
    cases he
  · rw [Bool.not_eq_true] at h0
    by_cases h1 : w.heatmapFails dir = true
    · rw [visualize_heatmapFail_eq w data dir h0 h1] at he
      simp only [List.mem_cons, List.not_mem_nil, or_false] at he
      rcases he with rfl | rfl <;> simp [artifactDir] at hq
    · rw [Bool.not_eq_true] at h1
      by_cases h2 : w.pairplotFails dir = true
      · rw [visualize_pairFail_eq w data dir h0 h1 h2] at he
        simp only [List.mem_cons, List.not_mem_nil, or_false] at he
        rcases he with rfl | rfl | rfl | rfl | rfl | rfl <;>
          simp [artifactDir, dropLast_append_single] at hq <;> exact hq.symm
      · rw [Bool.not_eq_true] at h2
        rw [visualize_ok_eq w data dir h0 h1 h2] at he
        simp only [List.mem_cons, List.not_mem_nil, or_false] at he
        rcases he with rfl | rfl | rfl | rfl | rfl | rfl | rfl | rfl <;>
          simp [artifactDir, dropLast_append_single] at hq <;> exact hq.symm

theorem report_artifacts (w : World) (data : Dataset) (dir : FPath) :
    ∀ e ∈ generate_markdown_report w data dir, ∀ q,
      artifactDir e = some q → q = dir := by
  intro e he q hq
  by_cases h : w.reportFails dir = true
  · rw [report_fail_eq w data dir h] at he
    simp only [List.mem_cons, List.not_mem_nil, or_false] at he
    rw [he] at hq
    cases hq
  · rw [Bool.not_eq_true] at h
    rw [report_ok_eq w data dir h] at he
    simp only [List.mem_cons, List.not_mem_nil, or_false] at he
    rcases he with rfl | rfl <;>
      simp [artifactDir, dropLast_append_single] at hq <;> exact hq.symm

theorem processOne_artifacts (w : World) (root : FPath) (n fp : String) :
    ∀ e ∈ (processOne w root n fp).1, ∀ q,
      artifactDir e = some q → q = root ++ [n] := by
  intro e he q hq
  rcases hl : (load_data w fp).2 with _ | data
  · rw [processOne_of_load_none w root n fp hl] at he
    rcases List.mem_cons.mp he with rfl | he
    · cases hq
    · rw [load_data_no_artifacts w fp e he] at hq; cases hq
  · by_cases ha : w.analyzeRaises data = true
    · rw [processOne_of_analyze_raises w root n fp data hl ha] at he
      simp only at he
      rcases List.mem_cons.mp he with rfl | he
      · cases hq
      · rcases List.mem_append.mp he with he | he
        · rw [load_data_no_artifacts w fp e he] at hq; cases hq
        · rcases List.mem_cons.mp he with rfl | he
          · cases hq
          · rw [analyze_data_no_artifacts w data e he] at hq; cases hq
    · rw [Bool.not_eq_true] at ha
      rw [processOne_ok_eq w root n fp data hl ha] at he
      simp only at he
      rcases List.mem_cons.mp he with rfl | he
      · cases hq
      · rcases List.mem_append.mp he with he | he
        · rw [load_data_no_artifacts w fp e he] at hq; cases hq
        · rcases List.mem_cons.mp he with rfl | he
          · cases hq
          · rcases List.mem_append.mp he with he | he
            · rw [analyze_data_no_artifacts w data e he] at hq; cases hq
            · rcases List.mem_append.mp he with he | he
              · exact visualize_artifacts w data (root ++ [n]) e he q hq
              · exact report_artifacts w data (root ++ [n]) e he q hq

theorem processOne_mkdirBefore (w : World) (root : FPath) (n fp : String) :
    mkdirBeforeArtifacts (processOne w root n fp).1 := by
  rcases hl : (load_data w fp).2 with _ | data
  · rw [processOne_of_load_none w root n fp hl]
    apply mkdirBeforeArtifacts_of_none
    intro e he
    rcases List.mem_cons.mp he with rfl | he
    · rfl
    · exact load_data_no_artifacts w fp e he
  · intro pre e post ht q hq
    have hq2 : q = root ++ [n] := by
      apply processOne_artifacts w root n fp e _ q hq
      rw [ht]
      exact List.mem_append_right _ (List.mem_cons_self _ _)
    subst hq2
    by_cases ha : w.analyzeRaises data = true
    · rw [processOne_of_analyze_raises w root n fp data hl ha] at ht
      simp only at ht
      have ht2 : (Ev.log (processingMsg n) :: (load_data w fp).1) ++
          (Ev.mkdir (root ++ [n]) true :: (analyze_data w data).1) =
          pre ++ e :: post := by
        rw [← ht]; simp
      refine mem_pre_of_no_earlier (fun x => (artifactDir x).isSome = true)
        (analyze_data w data).1 post (Ev.mkdir (root ++ [n]) true) e ?_ ?_
        (Ev.log (processingMsg n) :: (load_data w fp).1) pre ?_ ht2
      · simp [artifactDir]
      · show (artifactDir e).isSome = true
        rw [hq]; rfl
      · intro x hx
        rcases List.mem_cons.mp hx with rfl | hx
        · simp [artifactDir]
        · show ¬ (artifactDir x).isSome = true
          rw [load_data_no_artifacts w fp x hx]; simp
    · rw [Bool.not_eq_true] at ha
      rw [processOne_ok_eq w root n fp data hl ha] at ht
      simp only at ht
      have ht2 : (Ev.log (processingMsg n) :: (load_data w fp).1) ++
          (Ev.mkdir (root ++ [n]) true ::
            ((analyze_data w data).1 ++ (visualize_data w data (root ++ [n]) ++
              generate_markdown_report w data (root ++ [n])))) =
          pre ++ e :: post := by
        rw [← ht]; simp
      refine mem_pre_of_no_earlier (fun x => (artifactDir x).isSome = true)
        _ post (Ev.mkdir (root ++ [n]) true) e ?_ ?_
        (Ev.log (processingMsg n) :: (load_data w fp).1) pre ?_ ht2
      · simp [artifactDir]
      · show (artifactDir e).isSome = true
        rw [hq]; rfl
      · intro x hx
        rcases List.mem_cons.mp hx with rfl | hx
        · simp [artifactDir]
        · show ¬ (artifactDir x).isSome = true
          rw [load_data_no_artifacts w fp x hx]; simp

theorem runAll_artifacts (w : World) (root : FPath)
    (ds : List (String × String)) :
    ∀ e ∈ runAll w root ds, ∀ q, artifactDir e = some q →
      ∃ m ∈ ds.map Prod.fst, q = root ++ [m] := by
  induction ds with
  | nil => intro e he; cases he
  | cons d rest ih =>
    intro e he q hq
    rcases d with ⟨n, fp⟩
    unfold runAll at he
    rcases List.mem_append.mp he with he | he
    · exact ⟨n, by simp, processOne_artifacts w root n fp e he q hq⟩
    · by_cases hc : (processOne w root n fp).2 = true
      · rw [if_pos hc] at he
        obtain ⟨m, hm, hq2⟩ := ih e he q hq
        exact ⟨m, by simp; right; simpa using hm, hq2⟩
      · rw [Bool.not_eq_true] at hc
        rw [if_neg (by simp [hc])] at he
        cases he

theorem runAll_mkdirBefore (w : World) (root : FPath)
    (ds : List (String × String)) : mkdirBeforeArtifacts (runAll w root ds) := by
  induction ds with
  | nil =>
    apply mkdirBeforeArtifacts_of_none
    intro e he
    cases he
  | cons d rest ih =>
    rcases d with ⟨n, fp⟩
    unfold runAll
    apply mkdirBeforeArtifacts_append
    · exact processOne_mkdirBefore w root n fp
    · by_cases hc : (processOne w root n fp).2 = true
      · rw [if_pos hc]; exact ih
      · rw [Bool.not_eq_true] at hc
        rw [if_neg (by simp [hc])]
        apply mkdirBeforeArtifacts_of_none
        intro e he
        cases he

/- Claims. -/

/-- C3: for every input file path, if loading fails because the file is not
found, the file contains no parsable rows (EmptyDataError), or any other
parse failure survives the encoding retry, the Loader terminates the entire
process (an exited event, no DataFrame), so no remaining dataset in the
batch is ever attempted (the run trace is exactly the failing iteration). -/
theorem claimC3 (w : World) (fp : String)
    (h : w.read fp Encoding.utf8 = ReadResult.fileNotFound
      ∨ w.read fp Encoding.utf8 = ReadResult.emptyDataError
      ∨ (∃ e, w.read fp Encoding.utf8 = ReadResult.otherError e)
      ∨ (w.read fp Encoding.utf8 = ReadResult.unicodeDecodeError ∧
          ∀ d, w.read fp Encoding.iso8859_1 ≠ ReadResult.ok d)) :
    (load_data w fp).2 = none ∧ Ev.exited ∈ (load_data w fp).1 ∧
    ∀ (root : FPath) (n : String) (rest : List (String × String)),
      runAll w root ((n, fp) :: rest) = (processOne w root n fp).1 := by
  have hmain : (load_data w fp).2 = none ∧ Ev.exited ∈ (load_data w fp).1 := by
    rcases h with h | h | ⟨e, h⟩ | ⟨h, h2⟩
    · simp [load_data, h]
    · simp [load_data, h]
    · simp [load_data, h]
    · rcases h3 : w.read fp Encoding.iso8859_1 with d | _ | _ | _ | m2
      · exact absurd h3 (h2 d)
      · simp [load_data, h, h3]
      · simp [load_data, h, h3]
      · simp [load_data, h, h3]
      · simp [load_data, h, h3]
  refine ⟨hmain.1, hmain.2, ?_⟩
  intro root n rest
  apply runAll_cons_of_stop
  rw [processOne_of_load_none w root n fp hmain.1]

/-- Witness for C3 at a concrete missing-file world: the hypothesis holds,
the loader exits, and the second dataset of the batch is never attempted. -/
theorem claimC3_witness :
    wNotFound.read "pa" Encoding.utf8 = ReadResult.fileNotFound ∧
    ((load_data wNotFound "pa").2 = none ∧
      Ev.exited ∈ (load_data wNotFound "pa").1 ∧
      runAll wNotFound ["results"] [("a", "pa"), ("b", "pb")] =
        (processOne wNotFound ["results"] "a" "pa").1) := by
  refine ⟨rfl, ?_⟩
  have h := claimC3 wNotFound "pa" (Or.inl rfl)
  exact ⟨h.1, h.2.1, h.2.2 ["results"] "a" [("b", "pb")]⟩

/-- C4: for every input file, the Loader first attempts utf-8 (the first
read event targets utf-8), retries with ISO-8859-1 exactly when the utf-8
attempt raised a UnicodeDecodeError, and when the fallback read succeeds it
returns that DataFrame and logs that the fallback encoding was used. -/
theorem claimC4 (w : World) (fp : String) :
    (load_data w fp).1.head? = some (Ev.readCsv fp Encoding.utf8)
    ∧ (Ev.readCsv fp Encoding.iso8859_1 ∈ (load_data w fp).1 ↔
        w.read fp Encoding.utf8 = ReadResult.unicodeDecodeError)
    ∧ ∀ d : Dataset, w.read fp Encoding.utf8 = ReadResult.unicodeDecodeError →
        w.read fp Encoding.iso8859_1 = ReadResult.ok d →
        (load_data w fp).2 = some d ∧
          Ev.log (loadedFallbackMsg fp) ∈ (load_data w fp).1 := by
  refine ⟨?_, ?_, ?_⟩
  · rcases h : w.read fp Encoding.utf8 with d | _ | _ | _ | msg
    · simp [load_data, h]
    · rcases h2 : w.read fp Encoding.iso8859_1 with d | _ | _ | _ | m2 <;>
        simp [load_data, h, h2]
    · simp [load_data, h]
    · simp [load_data, h]
    · simp [load_data, h]
  · constructor
    · intro hm
      by_contra hne
      rcases h : w.read fp Encoding.utf8 with d | _ | _ | _ | msg <;>
        rw [h] at hne <;> simp [load_data, h] at hm <;> exact hne rfl
    · intro h
      rcases h2 : w.read fp Encoding.iso8859_1 with d | _ | _ | _ | m2 <;>
        simp [load_data, h, h2]
  · intro d h h2
    simp [load_data, h, h2]

/-- Witness for C4: at a concrete world whose utf-8 read raises a
UnicodeDecodeError and whose fallback read parses, the loader returns the
fallback DataFrame and logs the fallback message. -/
theorem claimC4_witness :
    wFallback.read "pa" Encoding.utf8 = ReadResult.unicodeDecodeError ∧
    wFallback.read "pa" Encoding.iso8859_1 = ReadResult.ok dNum ∧
    ((load_data wFallback "pa").2 = some dNum ∧
      Ev.log (loadedFallbackMsg "pa") ∈ (load_data wFallback "pa").1) :=
  ⟨rfl, rfl, (claimC4 wFallback "pa").2.2 dNum rfl rfl⟩

/-- C5: for every DataFrame with no numeric columns, the Visualizer writes
no image file and raises no error (the stage leaves no savefig event and no
visualization-error log in its trace, under any failure injection). -/
theorem claimC5 (w : World) (d : Dataset) (dir : FPath)
    (h : (numericSubset d).cols = []) :
    (∀ p, Ev.savefig p ∉ visualize_data w d dir) ∧
    Ev.log visErrMsg ∉ visualize_data w d dir := by
  have he : pdEmpty (numericSubset d) = true := by
    simp [pdEmpty, h]
  have hv : visualize_data w d dir = [] := by
    unfold visualize_data
    rw [if_pos he]
  rw [hv]
  simp

/-- Witness for C5 at a concrete all-text dataset. -/
theorem claimC5_witness :
    (numericSubset dText).cols = [] ∧
    Ev.savefig ["results", "a", "correlation_heatmap.png"] ∉
      visualize_data wOk dText ["results", "a"] ∧
    Ev.log visErrMsg ∉ visualize_data wOk dText ["results", "a"] := by
  refine ⟨by decide, ?_, ?_⟩
  · exact (claimC5 wOk dText ["results", "a"] (by decide)).1 _
  · exact (claimC5 wOk dText ["results", "a"] (by decide)).2

/-- C7: for every DataFrame, when the report write does not raise, the
Reporter writes exactly one file, README.md in the given output directory,
whose content is, in order: the title, the Dataset Overview section with the
row/column shape, the Missing Values section with one null-count entry for
every column (including columns with zero missing values), and the Summary
Statistics section with the descriptive-statistics table. -/
theorem claimC7 (w : World) (d : Dataset) (dir : FPath)
    (h : w.reportFails dir = false) :
    generate_markdown_report w d dir =
      [Ev.writeFile (dir ++ ["README.md"]) (reportPieces d),
        Ev.log (reportSavedMsg (dir ++ ["README.md"]))]
    ∧ reportPieces d =
        [Piece.title, Piece.overviewHeader,
          Piece.shapeLine d.nrows d.cols.length, Piece.missingHeader,
          Piece.missingBody (missingSeries d), Piece.blank, Piece.statsHeader,
          Piece.statsBody (describeColumns d), Piece.newline]
    ∧ ∀ c ∈ d.cols, (c.name, nullCount c) ∈ missingSeries d := by
  refine ⟨report_ok_eq w d dir h, rfl, ?_⟩
  intro c hc
  exact List.mem_map.mpr ⟨c, hc, rfl⟩

/-- Witness for C7 at a concrete dataset: one write of README.md whose
missing-value series covers the only column, which has zero missing cells. -/
theorem claimC7_witness :
    wOk.reportFails ["results", "a"] = false ∧
    generate_markdown_report wOk dNum ["results", "a"] =
      [Ev.writeFile ["results", "a", "README.md"] (reportPieces dNum),
        Ev.log (reportSavedMsg ["results", "a", "README.md"])] ∧
    ("x", 0) ∈ missingSeries dNum := by
  refine ⟨rfl, ?_, ?_⟩
  · have h := (claimC7 wOk dNum ["results", "a"] rfl).1
    simpa using h
  · have h := (claimC7 wOk dNum ["results", "a"] rfl).2.2 colNum (by decide)
    simpa [colNum, nullCount] using h

/-- C9: for every invocation of the Visualizer, under any dataset and any
injected failure pattern, every image save is followed by an explicit
plt.close of the figure state before the call returns: after any savefig
event of its trace, a closeFig event occurs later in the same trace. -/
theorem claimC9 (w : World) (d : Dataset) (dir : FPath) :
    saveThenClosed (visualize_data w d dir) := by
  by_cases h0 : pdEmpty (numericSubset d) = true
  · unfold visualize_data
    rw [if_pos h0]
    exact saveThenClosed_nil
  · rw [Bool.not_eq_true] at h0
    by_cases h1 : w.heatmapFails dir = true
    · rw [visualize_heatmapFail_eq w d dir h0 h1]
      simp [saveThenClosed_cons, saveThenClosed_nil]
    · rw [Bool.not_eq_true] at h1
      by_cases h2 : w.pairplotFails dir = true
      · rw [visualize_pairFail_eq w d dir h0 h1 h2]
        simp [saveThenClosed_cons, saveThenClosed_nil]
      · rw [Bool.not_eq_true] at h2
        rw [visualize_ok_eq w d dir h0 h1 h2]
        simp [saveThenClosed_cons, saveThenClosed_nil]

/-- Witness for C9 at a concrete run: after the heatmap save of a fully
successful visualization, a closeFig event follows in the remaining trace. -/
theorem claimC9_witness :
    Ev.closeFig ∈
      [Ev.log (heatmapSavedMsg ["results", "a", "correlation_heatmap.png"]),
        Ev.closeFig, Ev.figure, Ev.savefig ["results", "a", "pairplot.png"],
        Ev.log (pairplotSavedMsg ["results", "a", "pairplot.png"]),
        Ev.closeFig] := by
  refine claimC9 wOk dNum ["results", "a"] [Ev.figure]
    (Ev.savefig ["results", "a", "correlation_heatmap.png"]) _ ?_
    ⟨["results", "a", "correlation_heatmap.png"], rfl⟩
  decide

/-- C10: for every dataset whose numeric projection is non-empty, when the
heatmap rendering raises, the pairplot is never attempted (no savefig event
at all, since the two image blocks share the single try scope of the
Visualizer), the error is logged, and the Reporter still runs afterwards:
the iteration trace ends with the full Reporter trace. -/
theorem claimC10 (w : World) (root : FPath) (n fp : String) (data : Dataset)
    (hl : (load_data w fp).2 = some data)
    (ha : w.analyzeRaises data = false)
    (hne : pdEmpty (numericSubset data) = false)
    (hf : w.heatmapFails (root ++ [n]) = true) :
    (∀ p, Ev.savefig p ∉ visualize_data w data (root ++ [n]))
    ∧ Ev.log visErrMsg ∈ visualize_data w data (root ++ [n])
    ∧ ∃ t0, (processOne w root n fp).1 =
        t0 ++ generate_markdown_report w data (root ++ [n]) := by
  have hv := visualize_heatmapFail_eq w data (root ++ [n]) hne hf
  refine ⟨?_, ?_, ?_⟩
  · intro p
    rw [hv]
    simp
  · rw [hv]
    simp
  · refine ⟨Ev.log (processingMsg n) ::
      ((load_data w fp).1 ++ (Ev.mkdir (root ++ [n]) true ::
        ((analyze_data w data).1 ++ visualize_data w data (root ++ [n])))), ?_⟩
    rw [processOne_ok_eq w root n fp data hl ha]
    simp

/-- Witness for C10 at a concrete run whose heatmap save raises: no image is
saved, the error is logged, and the reporter trace closes the iteration. -/
theorem claimC10_witness :
    (load_data wHeatFail "pa").2 = some dNum ∧
    wHeatFail.analyzeRaises dNum = false ∧
    pdEmpty (numericSubset dNum) = false ∧
    wHeatFail.heatmapFails ["results", "a"] = true ∧
    Ev.savefig ["results", "a", "pairplot.png"] ∉
      visualize_data wHeatFail dNum ["results", "a"] ∧
    Ev.log visErrMsg ∈ visualize_data wHeatFail dNum ["results", "a"] ∧
    ∃ t0, (processOne wHeatFail ["results"] "a" "pa").1 =
      t0 ++ generate_markdown_report wHeatFail dNum ["results", "a"] := by
  have h := claimC10 wHeatFail ["results"] "a" "pa" dNum rfl rfl (by decide) rfl
  exact ⟨rfl, rfl, by decide, rfl, h.1 _, h.2.1, h.2.2⟩

/-- C1, counterexample: the claim says a failure raised inside any of the
Analyzer, Visualizer or Reporter stages is caught, the remaining stages
still execute and processing continues to the next dataset.  At a concrete
world whose analysis stage raises, the dataset is being processed (its
directory was created) but its Reporter never runs and the next dataset is
never started: the analyzer stage has no exception containment. -/
theorem claimC1_cex :
    wAnaRaise.analyzeRaises dNum = true ∧
    (load_data wAnaRaise "pa").2 = some dNum ∧
    Ev.mkdir ["results", "a"] true ∈
      runAll wAnaRaise ["results"] [("a", "pa"), ("b", "pb")] ∧
    Ev.writeFile ["results", "a", "README.md"] (reportPieces dNum) ∉
      runAll wAnaRaise ["results"] [("a", "pa"), ("b", "pb")] ∧
    Ev.log (processingMsg "b") ∉
      runAll wAnaRaise ["results"] [("a", "pa"), ("b", "pb")] := by
  decide

/-- C1, amended: for every dataset whose load succeeds and whose analysis
does not raise, a failure raised inside the Visualizer or the Reporter is
caught at that stage boundary and logged, the remaining stages of the
pipeline still execute (the report is still written after a visualization
failure), and processing continues to the next dataset in the mapping;
a failure inside the Analyzer is not contained and aborts the run. -/
theorem claimC1_amended (w : World) (root : FPath) (n fp : String)
    (rest : List (String × String)) (data : Dataset)
    (hl : (load_data w fp).2 = some data)
    (ha : w.analyzeRaises data = false) :
    (pdEmpty (numericSubset data) = false → w.heatmapFails (root ++ [n]) = true →
        Ev.log visErrMsg ∈ runAll w root ((n, fp) :: rest))
    ∧ (w.reportFails (root ++ [n]) = true →
        Ev.log reportErrMsg ∈ runAll w root ((n, fp) :: rest))
    ∧ (w.reportFails (root ++ [n]) = false →
        Ev.writeFile ((root ++ [n]) ++ ["README.md"]) (reportPieces data) ∈
          runAll w root ((n, fp) :: rest))
    ∧ runAll w root ((n, fp) :: rest) =
        (processOne w root n fp).1 ++ runAll w root rest := by
  have hp := processOne_ok_eq w root n fp data hl ha
  have hr := runAll_cons_of_cont w root n fp rest (by rw [hp])
  have lift : ∀ e : Ev, e ∈ visualize_data w data (root ++ [n]) ++
      generate_markdown_report w data (root ++ [n]) →
      e ∈ runAll w root ((n, fp) :: rest) := by
    intro e he
    rw [hr, hp]
    apply List.mem_append_left
    apply List.mem_cons_of_mem
    apply List.mem_append_right
    apply List.mem_cons_of_mem
    exact List.mem_append_right _ he
  refine ⟨?_, ?_, ?_, hr⟩
  · intro hne hf
    apply lift
    apply List.mem_append_left
    rw [visualize_heatmapFail_eq w data (root ++ [n]) hne hf]
    simp
  · intro hrf
    apply lift
    apply List.mem_append_right
    rw [report_fail_eq w data (root ++ [n]) hrf]
    simp
  · intro hrf
    apply lift
    apply List.mem_append_right
    rw [report_ok_eq w data (root ++ [n]) hrf]
    simp

/-- Witness for the amended C1 at a concrete run whose heatmap save raises:
the visualization error is logged, the report is still written, and the
trace continues with the rest of the batch. -/
theorem claimC1_witness :
    (load_data wHeatFail "pa").2 = some dNum ∧
    wHeatFail.analyzeRaises dNum = false ∧
    Ev.log visErrMsg ∈ runAll wHeatFail ["results"] [("a", "pa"), ("b", "pb")] ∧
    Ev.writeFile ["results", "a", "README.md"] (reportPieces dNum) ∈
      runAll wHeatFail ["results"] [("a", "pa"), ("b", "pb")] ∧
    runAll wHeatFail ["results"] [("a", "pa"), ("b", "pb")] =
      (processOne wHeatFail ["results"] "a" "pa").1 ++
        runAll wHeatFail ["results"] [("b", "pb")] := by
  have h := claimC1_amended wHeatFail ["results"] "a" "pa" [("b", "pb")] dNum
    rfl rfl
  exact ⟨rfl, rfl, h.1 (by decide) rfl, by simpa using h.2.2.1 rfl, h.2.2.2⟩

/-- C2, counterexample: the claim says the orchestrator first creates the
dataset subdirectory and only then invokes the Loader.  In the concrete run
below, the Loader read happens strictly before the mkdir of the dataset
directory, and never the other way round: main calls load_data before
os.makedirs(dataset_dir). -/
theorem claimC2_cex :
    evBefore (runAll wOk ["results"] [("a", "pa")])
      (Ev.readCsv "pa" Encoding.utf8) (Ev.mkdir ["results", "a"] true)
    ∧ ¬ evBefore (runAll wOk ["results"] [("a", "pa")])
      (Ev.mkdir ["results", "a"] true) (Ev.readCsv "pa" Encoding.utf8) := by
  decide

/-- C2, amended: for every entry of the dataset mapping, in iteration order,
the orchestrator first invokes the Loader, then creates that dataset output
subdirectory idempotently (makedirs with exist_ok true), and then invokes
the Analyzer, Visualizer and Reporter, in that sequence. -/
theorem claimC2_amended (w : World) (root : FPath) (n fp : String)
    (rest : List (String × String)) (data : Dataset)
    (hl : (load_data w fp).2 = some data)
    (ha : w.analyzeRaises data = false) :
    processOne w root n fp =
      (Ev.log (processingMsg n) ::
        ((load_data w fp).1 ++ (Ev.mkdir (root ++ [n]) true ::
          ((analyze_data w data).1 ++ (visualize_data w data (root ++ [n]) ++
            generate_markdown_report w data (root ++ [n]))))), true)
    ∧ runAll w root ((n, fp) :: rest) =
        (processOne w root n fp).1 ++ runAll w root rest := by
  have hp := processOne_ok_eq w root n fp data hl ha
  exact ⟨hp, runAll_cons_of_cont w root n fp rest (by rw [hp])⟩

/-- Witness for the amended C2 at a concrete run. -/
theorem claimC2_witness :
    (load_data wOk "pa").2 = some dNum ∧
    wOk.analyzeRaises dNum = false ∧
    processOne wOk ["results"] "a" "pa" =
      (Ev.log (processingMsg "a") ::
        ((load_data wOk "pa").1 ++ (Ev.mkdir ["results", "a"] true ::
          ((analyze_data wOk dNum).1 ++
            (visualize_data wOk dNum ["results", "a"] ++
              generate_markdown_report wOk dNum ["results", "a"])))), true) := by
  have h := claimC2_amended wOk ["results"] "a" "pa" [] dNum rfl rfl
  exact ⟨rfl, rfl, by simpa using h.1⟩

/-- C6, counterexample: the claim asserts both image files and a symmetric
unit-diagonal correlation matrix for every dataset with at least one numeric
column.  It fails at a dataset whose only numeric column is constant (pandas
nancorr yields NaN for its self-correlation, not 1.0), and at a zero-row
dataset with a numeric column (numeric_data.empty is true, so no image is
written at all). -/
theorem claimC6_cex :
    ¬ claimC6Prop wOk dConst ["results", "a"] ∧
    ¬ claimC6Prop wOk dZeroRow ["results", "a"] := by
  constructor
  · intro h
    have hdiag := h.2.2.2 colConst (by decide)
    have hnone : corrEntry colConst colConst = none := by
      have hps : pairedObs colConst colConst = [((5 : ℚ), (5 : ℚ)), (5, 5)] :=
        rfl
      rw [corrEntry, hps]
      norm_num [corrOf, vxOf, vyOf, covOf, sumFst, sumSnd, sumFstSq, sumSndSq,
        sumProd]
    rw [hnone] at hdiag
    exact hdiag
  · intro h
    have hs := h.1
    have hv : visualize_data wOk dZeroRow ["results", "a"] = [] := rfl
    rw [hv] at hs
    exact List.not_mem_nil _ hs

/-- C6, amended: for every dataset whose numeric projection is non-empty in
the pandas sense (at least one numeric column and at least one row), when
rendering succeeds the Visualizer saves both image files into the output
directory, the rendered correlation matrix is symmetric, and every numeric
column whose self-correlation is defined has self-correlation exactly one
(constant columns and columns without observations give NaN instead). -/
theorem claimC6_amended (w : World) (d : Dataset) (dir : FPath)
    (hne : pdEmpty (numericSubset d) = false)
    (h1 : w.heatmapFails dir = false) (h2 : w.pairplotFails dir = false) :
    Ev.savefig (dir ++ ["correlation_heatmap.png"]) ∈ visualize_data w d dir
    ∧ Ev.savefig (dir ++ ["pairplot.png"]) ∈ visualize_data w d dir
    ∧ corrSymmetric d
    ∧ ∀ c ∈ (numericSubset d).cols, corrEntry c c ≠ none →
        repIsOne (corrEntry c c) := by
  have hv := visualize_ok_eq w d dir hne h1 h2
  refine ⟨by rw [hv]; simp, by rw [hv]; simp, ?_, ?_⟩
  · intro ci _ cj _
    exact corrEntry_symm ci cj
  · intro c _ hcc
    exact corrEntry_self_of_ne_none c hcc

/-- Witness for the amended C6 at a concrete dataset with one non-constant
numeric column. -/
theorem claimC6_witness :
    pdEmpty (numericSubset dNum) = false ∧
    Ev.savefig ["results", "a", "correlation_heatmap.png"] ∈
      visualize_data wOk dNum ["results", "a"] ∧
    Ev.savefig ["results", "a", "pairplot.png"] ∈
      visualize_data wOk dNum ["results", "a"] ∧
    corrSymmetric dNum ∧
    repIsOne (corrEntry colNum colNum) := by
  have h := claimC6_amended wOk dNum ["results", "a"] (by decide) rfl rfl
  have hsome : corrEntry colNum colNum = some (1, 1) := by
    have hps : pairedObs colNum colNum = [((1 : ℚ), (1 : ℚ)), (2, 2)] := rfl
    rw [corrEntry, hps]
    norm_num [corrOf, vxOf, vyOf, covOf, sumFst, sumSnd, sumFstSq, sumSndSq,
      sumProd]
  exact ⟨by decide, by simpa using h.1, by simpa using h.2.1, h.2.2.1,
    h.2.2.2 colNum (by decide) (by rw [hsome]; simp)⟩

/-- C8: artifacts are isolated per dataset by construction: every artifact
event of one loop iteration writes into the directory of that dataset
root/name; distinct dataset names give distinct directories; every artifact
of a whole run writes into the directory of some dataset of the mapping; and
every artifact write is preceded in the trace by the creation of its
directory. -/
theorem claimC8 (w : World) (root : FPath) :
    (∀ n fp : String, ∀ e ∈ (processOne w root n fp).1, ∀ q,
        artifactDir e = some q → q = root ++ [n])
    ∧ (∀ n1 n2 : String, n1 ≠ n2 → root ++ [n1] ≠ root ++ [n2])
    ∧ ∀ ds : List (String × String),
        (∀ e ∈ runAll w root ds, ∀ q, artifactDir e = some q →
          ∃ m ∈ ds.map Prod.fst, q = root ++ [m])
        ∧ mkdirBeforeArtifacts (runAll w root ds) := by
  refine ⟨fun n fp => processOne_artifacts w root n fp, ?_, ?_⟩
  · intro n1 n2 hne heq
    apply hne
    simpa using heq
  · intro ds
    exact ⟨runAll_artifacts w root ds, runAll_mkdirBefore w root ds⟩

/-- Witness for C8 at a concrete run: the heatmap artifact of dataset a goes
into the directory of dataset a, and the mkdir of that directory precedes
the save in the trace. -/
theorem claimC8_witness :
    (["results", "a"] : FPath) = ["results"] ++ ["a"] ∧
    Ev.mkdir ["results", "a"] true ∈
      [Ev.log (processingMsg "a"), Ev.readCsv "pa" Encoding.utf8,
        Ev.log (loadedMsg "pa"), Ev.mkdir ["results", "a"] true,
        Ev.log "--- Dataset Overview ---", Ev.log (infoText dNum),
        Ev.log "--- Summary Statistics ---", Ev.log (describeText dNum),
        Ev.log "--- Missing Values ---", Ev.log (missingText dNum),
        Ev.figure] := by
  constructor
  · exact (claimC8 wOk ["results"]).1 "a" "pa"
      (Ev.savefig ["results", "a", "correlation_heatmap.png"]) (by decide)
      ["results", "a"] (by decide)
  · exact ((claimC8 wOk ["results"]).2.2 [("a", "pa")]).2
      [Ev.log (processingMsg "a"), Ev.readCsv "pa" Encoding.utf8,
        Ev.log (loadedMsg "pa"), Ev.mkdir ["results", "a"] true,
        Ev.log "--- Dataset Overview ---", Ev.log (infoText dNum),
        Ev.log "--- Summary Statistics ---", Ev.log (describeText dNum),
        Ev.log "--- Missing Values ---", Ev.log (missingText dNum),
        Ev.figure]
      (Ev.savefig ["results", "a", "correlation_heatmap.png"])
      [Ev.log (heatmapSavedMsg ["results", "a", "correlation_heatmap.png"]),
        Ev.closeFig, Ev.figure, Ev.savefig ["results", "a", "pairplot.png"],
        Ev.log (pairplotSavedMsg ["results", "a", "pairplot.png"]),
        Ev.closeFig,
        Ev.writeFile ["results", "a", "README.md"] (reportPieces dNum),
        Ev.log (reportSavedMsg ["results", "a", "README.md"])]
      (by decide) ["results", "a"] (by decide)

end Autolysis
